import Mathlib

/-!
Shallow embedding of the `dromos-authkit` Go repository (Gin middleware that
validates Zitadel OIDC JWTs and enforces role/tenant policy).

Conventions of the embedding:
* Go `map[string]V` values are lists of pairs; insertion prepends, lookup takes
  the first match, so a later insertion shadows an earlier one, as in Go.
* Go `time.Time` / `time.Duration` are natural numbers of seconds (the cache
  TTL `1 * time.Hour` becomes `3600`, the refresh guard `30 * time.Second`
  becomes `30`); `time.Since(t)` at instant `now` is truncated subtraction
  `now - t`.
* Network I/O (the JWKS HTTP GET) is modelled by a `FetchOutcome` argument
  describing what the endpoint would return; the boolean fields `fetched` /
  `attempted` record whether the HTTP client was actually invoked.
* RSA signature verification is a parameter `vs : RSAPublicKey → Token → Bool`
  of the validation pipeline (the cryptographic primitive itself is outside
  the repository); everything proved below holds for every such function.
-/

namespace Authkit

/-- JSON values, as decoded into Go `interface{}` by `encoding/json`:
strings, numbers, booleans, null, arrays and objects. -/
inductive JsonVal where
  | str (s : String)
  | num (n : Int)
  | boolean (b : Bool)
  | null
  | arr (elems : List JsonVal)
  | obj (fields : List (String × JsonVal))

/-- Go map lookup over the association-list model (first match wins;
`buildKeys` and friends prepend on insert, matching Go overwrite). -/
def mapLookup {α : Type} (m : List (String × α)) (k : String) : Option α :=
  match m.find? (fun p => p.1 == k) with
  | some p => some p.2
  | none => none

/-- `jwt.MapClaims`: the decoded token payload. -/
abbrev MapClaims := List (String × JsonVal)

/-- `Claims` struct from `claims.go`: the validated JWT claims.
`Roles = none` models a nil Go map (the zero value). -/
structure Claims where
  Sub : String
  Email : String
  OrgID : String
  OrgDomain : String
  Roles : Option (List (String × JsonVal))

/-- `Config` struct from `config.go`. -/
structure Config where
  IssuerURL : String
  Audience : String
  SkipPaths : List String

/-- The per-request inputs the middleware reads from the Gin context:
`c.FullPath()`, `c.GetHeader("Authorization")` (empty string when the header
is absent, as in Go) and `c.Query("token")` (empty string when absent). -/
structure Request where
  fullPath : String
  authHeader : String
  tokenQuery : String

/-- `getStringClaim` from `auth.go`: a string-typed claim, else `""`. -/
def getStringClaim (m : MapClaims) (key : String) : String :=
  match mapLookup m key with
  | some (.str v) => v
  | _ => ""

/-- The claims-extraction block shared by `AuthN` and `ValidateToken`
(`auth.go` lines 94-103 / 205-212): build a `Claims` from the payload.
`OrgDomain` is never assigned there, so it stays at the struct zero value. -/
def buildClaims (m : MapClaims) : Claims :=
  let base : Claims :=
    { Sub := getStringClaim m "sub"
      Email := getStringClaim m "email"
      OrgID := getStringClaim m "urn:zitadel:iam:org:id"
      OrgDomain := ""
      Roles := none }
  match mapLookup m "urn:zitadel:iam:org:project:roles" with
  | some (.obj fields) => { base with Roles := some fields }
  | _ => base

/-- `GetClaims` from `claims.go`, with the Gin context's claims slot modelled
as an `Option Claims` (nil when `AuthN` did not run or did not bind). -/
def GetClaims (ctx : Option Claims) : Option Claims := ctx

/-- `OrgID` accessor from `claims.go`: empty string when unauthenticated. -/
def OrgID (ctx : Option Claims) : String :=
  match GetClaims ctx with
  | some cl => cl.OrgID
  | none => ""

/-- `HasRole` from `claims.go`: key membership in the roles map; false when
no claims are bound or the map is nil. -/
def HasRole (ctx : Option Claims) (role : String) : Bool :=
  match GetClaims ctx with
  | none => false
  | some cl =>
    match cl.Roles with
    | none => false
    | some rs => (mapLookup rs role).isSome

/-- `HasAnyRole` from `claims.go`: loop over the variadic role list, returning
true on the first role the user has. -/
def HasAnyRole (ctx : Option Claims) (roles : List String) : Bool :=
  roles.any (fun r => HasRole ctx r)

/-- What a middleware handler does with the request: pass it on (`c.Next()`)
or abort with an HTTP status and a JSON error message
(`c.AbortWithStatusJSON(status, gin.H\x7b"error": msg\x7d)`). -/
inductive MwResult where
  | next
  | abort (status : Nat) (errorMsg : String)

/-- `RequireTenant` from `tenant.go`: 403 when no organization context. -/
def RequireTenant (ctx : Option Claims) : MwResult :=
  if OrgID ctx = "" then
    .abort 403 "no organization context — user must belong to an organization"
  else
    .next

/-- `RequireRole` from the role middleware: 403 listing the required roles
unless the user has at least one of them. -/
def RequireRole (roles : List String) (ctx : Option Claims) : MwResult :=
  if HasAnyRole ctx roles then
    .next
  else
    .abort 403 ("insufficient permissions — requires one of: " ++ String.intercalate ", " roles)

/-- `strings.HasPrefix` over the character lists of the two strings (first
argument: the sought leading segment, second: the searched string). -/
def hasPrefixCharList : List Char → List Char → Bool
  | [], _ => true
  | _ :: _, [] => false
  | p :: ps, c :: cs => p == c && hasPrefixCharList ps cs

/-- `strings.HasPrefix(s, p)`. -/
def strHasPrefix (s p : String) : Bool :=
  hasPrefixCharList p.data s.data

/-- `extractToken` from `auth.go`: `Authorization` header when it is non-empty
and starts with `"Bearer "` (then `strings.TrimPrefix` drops those 7
characters), else the `token` query parameter when non-empty, else `""`. -/
def extractToken (r : Request) : String :=
  if !(r.authHeader == "") && strHasPrefix r.authHeader "Bearer " then
    r.authHeader.drop 7
  else if !(r.tokenQuery == "") then
    r.tokenQuery
  else
    ""

/-- An `rsa.PublicKey`: arbitrary-precision modulus and integer exponent. -/
structure RSAPublicKey where
  N : Nat
  E : Nat
deriving DecidableEq

/-- Value of one character of the base64url alphabet (`encoding/base64`
URL encoding: `A-Z`, `a-z`, `0-9`, `-`, `_`). -/
def b64urlCharVal (c : Char) : Option Nat :=
  if 'A' ≤ c ∧ c ≤ 'Z' then some (c.toNat - 65)
  else if 'a' ≤ c ∧ c ≤ 'z' then some (c.toNat - 97 + 26)
  else if '0' ≤ c ∧ c ≤ '9' then some (c.toNat - 48 + 52)
  else if c = '-' then some 62
  else if c = '_' then some 63
  else none

/-- Reassemble 6-bit sextets into bytes, unpadded (`base64.RawURLEncoding`):
groups of 4 sextets give 3 bytes; a final group of 2 or 3 sextets gives 1 or
2 bytes; a final group of 1 sextet is a corrupt input. -/
def b64urlGroup : List Nat → Option (List Nat)
  | [] => some []
  | [_] => none
  | [a, b] => some [a * 4 + b / 16]
  | [a, b, c] => some [a * 4 + b / 16, b % 16 * 16 + c / 4]
  | a :: b :: c :: d :: rest =>
    match b64urlGroup rest with
    | some tail => some ((a * 4 + b / 16) :: (b % 16 * 16 + c / 4) :: (c % 4 * 64 + d) :: tail)
    | none => none

/-- `base64.RawURLEncoding.DecodeString`: bytes of the decoded string, or
`none` on an alien character or truncated final group. -/
def base64RawURLDecode (s : String) : Option (List Nat) :=
  match s.data.mapM b64urlCharVal with
  | some vals => b64urlGroup vals
  | none => none

/-- Big-endian bytes to a natural number (`big.Int.SetBytes`, and the Go loop
`e = e<<8 + int(b)` for the exponent). -/
def bytesToNat (bs : List Nat) : Nat :=
  bs.foldl (fun acc b => acc * 256 + b) 0

/-- `parseRSAPublicKey` from the JWKS file: base64url-decode the modulus and
exponent strings and assemble the public key. -/
def parseRSAPublicKey (nStr eStr : String) : Option RSAPublicKey :=
  match base64RawURLDecode nStr with
  | none => none
  | some nBytes =>
    match base64RawURLDecode eStr with
    | none => none
    | some eBytes => some { N := bytesToNat nBytes, E := bytesToNat eBytes }

/-- `jwksKey`: one entry of the JWKS endpoint response. -/
structure JwksKey where
  Kty : String
  Kid : String
  Use : String
  Alg : String
  N : String
  E : String

/-- `jwksResponse`: the decoded JWKS endpoint response body. -/
structure JwksResponse where
  Keys : List JwksKey

/-- `JWKSCache` state: URL, key mapping, last fetch instant, TTL.
(`NewJWKSCache` sets `cacheTTL = 3600` seconds and an empty mapping.) -/
structure JWKSCache where
  jwksURL : String
  keys : List (String × RSAPublicKey)
  lastFetch : Nat
  cacheTTL : Nat

/-- `NewJWKSCache` from the JWKS file (zero `time.Time` becomes instant 0). -/
def NewJWKSCache (url : String) : JWKSCache :=
  { jwksURL := url, keys := [], lastFetch := 0, cacheTTL := 3600 }

/-- What the JWKS endpoint would answer if queried: transport error, or a
response with a status code and a body (`none` = body that fails to decode
as JSON). -/
inductive FetchOutcome where
  | netErr
  | resp (status : Nat) (body : Option JwksResponse)

/-- Whether a `FetchOutcome` makes `refresh` fail (transport error, non-200
status, or undecodable body). -/
def fetchFails : FetchOutcome → Bool
  | .netErr => true
  | .resp status body => status != 200 || body.isNone

/-- Result of one `refresh` call: double-check hit (no HTTP request), a
successful fetch, or a failed fetch attempt. -/
inductive RefreshResult where
  | skipped
  | fetched
  | failed (msg : String)

/-- Whether the HTTP client was invoked (everything except the
double-check skip). -/
def RefreshResult.attempted : RefreshResult → Bool
  | .skipped => false
  | _ => true

/-- The key-filtering loop of `refresh`: keep entries with `kty == "RSA"` and
`use == "sig"` whose modulus/exponent decode, skip the rest. Prepending on
insert models Go map overwrite under first-match `mapLookup`. -/
def buildKeys (ks : List JwksKey) : List (String × RSAPublicKey) :=
  ks.foldl
    (fun acc k =>
      if k.Kty != "RSA" || k.Use != "sig" then acc
      else
        match parseRSAPublicKey k.N k.E with
        | none => acc
        | some pk => (k.Kid, pk) :: acc)
    []

/-- `JWKSCache.refresh` under the exclusive lock: skip when the last fetch is
under 30 seconds old (`30*time.Second` double-check), else perform the HTTP
GET; on any failure return the error with the state untouched; on success
swap in the new mapping and timestamp. -/
def refresh (j : JWKSCache) (now : Nat) (outcome : FetchOutcome) :
    JWKSCache × RefreshResult :=
  if now - j.lastFetch < 30 then (j, .skipped)
  else
    match outcome with
    | .netErr => (j, .failed "JWKS fetch failed")
    | .resp status body =>
      if status != 200 then (j, .failed ("JWKS endpoint returned status " ++ toString status))
      else
        match body with
        | none => (j, .failed "failed to decode JWKS")
        | some jwks =>
          ({ j with keys := buildKeys jwks.Keys, lastFetch := now }, .fetched)

/-- Observable outcome of one `GetKey` call: the cache state afterwards, the
returned key or error, and whether the HTTP client was invoked. -/
structure GetKeyResult where
  cache : JWKSCache
  result : Except String RSAPublicKey
  fetched : Bool

/-- `JWKSCache.GetKey`: read-locked fast path (key present and
`now - lastFetch < cacheTTL`), else `refresh` and a second lookup. -/
def GetKey (j : JWKSCache) (kid : String) (now : Nat) (outcome : FetchOutcome) :
    GetKeyResult :=
  let fast : Option RSAPublicKey :=
    match mapLookup j.keys kid with
    | some key => if now - j.lastFetch < j.cacheTTL then some key else none
    | none => none
  match fast with
  | some key => { cache := j, result := .ok key, fetched := false }
  | none =>
    match refresh j now outcome with
    | (jnew, .failed msg) =>
      { cache := jnew, result := .error ("failed to refresh JWKS: " ++ msg), fetched := true }
    | (jnew, r) =>
      match mapLookup jnew.keys kid with
      | some key => { cache := jnew, result := .ok key, fetched := r.attempted }
      | none =>
        { cache := jnew
          result := .error ("key \x22" ++ kid ++ "\x22 not found in JWKS")
          fetched := r.attempted }

/-- Serialized trace of `GetKey` calls for one key id (the `RWMutex` makes
each call's critical sections atomic, so any concurrent execution is one of
these serializations). Returns the final state and how many HTTP requests
were issued. -/
def runCalls (j : JWKSCache) (kid : String) :
    List (Nat × FetchOutcome) → JWKSCache × Nat
  | [] => (j, 0)
  | (now, outcome) :: rest =>
    let r := GetKey j kid now outcome
    let rec_ := runCalls r.cache kid rest
    (rec_.1, (if r.fetched then 1 else 0) + rec_.2)

/-- A structurally well-formed compact token after `ParseUnverified`: declared
algorithm, the header `kid` when present as a string (`none` covers both an
absent `kid` and one of a non-string type, which Go's type assertion
rejects the same way), and the decoded payload. -/
structure Token where
  alg : String
  kid : Option String
  payload : MapClaims

/-- Internal error kinds of the validation pipeline (`golang-jwt/v5` parse
with `WithValidMethods(["RS256"])` and `WithIssuer`): these stay
distinguishable inside the library. -/
inductive ParseError where
  | unsupportedAlg (alg : String)
  | keyfuncError (msg : String)
  | signatureInvalid
  | tokenExpired
  | tokenNotYetValid
  | issuerMismatch
  | invalidClaimType

/-- The RSA signing methods (`*jwt.SigningMethodRSA` instances): the type
assertion inside the keyfunc accepts exactly these. -/
def isRSAMethod (alg : String) : Bool :=
  alg == "RS256" || alg == "RS384" || alg == "RS512"

/-- Outcome of running the keyfunc: cache state afterwards, resolved key or
error, whether `JWKSCache.GetKey` was invoked at all, and whether an HTTP
fetch happened. -/
structure KeyFuncResult where
  cache : JWKSCache
  result : Except String RSAPublicKey
  getKeyCalled : Bool
  fetched : Bool

/-- The keyfunc closure shared by `AuthN`, `ValidateToken` and `KeyFunc`:
reject a non-RSA signing method, then a missing `kid`, then resolve the key
through the cache. -/
def keyFunc (j : JWKSCache) (t : Token) (now : Nat) (outcome : FetchOutcome) :
    KeyFuncResult :=
  if !isRSAMethod t.alg then
    { cache := j, result := .error ("unexpected signing method: " ++ t.alg)
      getKeyCalled := false, fetched := false }
  else
    match t.kid with
    | none =>
      { cache := j, result := .error "missing kid in token header"
        getKeyCalled := false, fetched := false }
    | some kid =>
      let r := GetKey j kid now outcome
      { cache := r.cache, result := r.result, getKeyCalled := true, fetched := r.fetched }

/-- `MapClaims.GetExpirationTime`-style read of a numeric-date claim:
`some none` = claim absent (legal), `some (some v)` = numeric value,
`none` = present with a non-numeric type (a claim-type error). -/
def getNumericDate (m : MapClaims) (key : String) : Option (Option Int) :=
  match mapLookup m key with
  | none => some none
  | some (.num v) => some (some v)
  | some _ => none

/-- The `exp` check of the `v5` validator: optional, but when present the
validation instant must lie strictly before it. -/
def checkExp (m : MapClaims) (now : Nat) : Option ParseError :=
  match getNumericDate m "exp" with
  | none => some .invalidClaimType
  | some none => none
  | some (some e) => if (now : Int) < e then none else some .tokenExpired

/-- The `nbf` check of the `v5` validator: optional, but when present the
validation instant must not lie before it. -/
def checkNbf (m : MapClaims) (now : Nat) : Option ParseError :=
  match getNumericDate m "nbf" with
  | none => some .invalidClaimType
  | some none => none
  | some (some nbf) => if nbf ≤ (now : Int) then none else some .tokenNotYetValid

/-- The issuer check installed by `WithIssuer`: required string equality
(skipped by the `v5` validator when the expected issuer is empty). -/
def checkIss (m : MapClaims) (expected : String) : Option ParseError :=
  if expected == "" then none
  else
    match mapLookup m "iss" with
    | some (.str s) => if s == expected then none else some .issuerMismatch
    | _ => some .issuerMismatch

/-- Standard-claims validation of `jwt.Parse` (first failing check is
reported; `iat` is not verified by default, audience is not configured on
the parser — `AuthN` checks it separately afterwards). -/
def validateClaims (m : MapClaims) (cfg : Config) (now : Nat) : Option ParseError :=
  match checkExp m now with
  | some e => some e
  | none =>
    match checkNbf m now with
    | some e => some e
    | none => checkIss m cfg.IssuerURL

/-- Outcome of `jwt.Parse`: cache state, verified payload or internal error,
plus the key-lookup/fetch observables. -/
structure ParseResult where
  cache : JWKSCache
  result : Except ParseError MapClaims
  getKeyCalled : Bool
  fetched : Bool

/-- `jwt.Parse(tokenStr, keyfunc, WithIssuer(cfg.IssuerURL),
WithValidMethods(["RS256"]))` on a structurally well-formed token: the
`v5` parser checks the allow-list first, then runs the keyfunc, then
verifies the signature with the resolved key, then validates the standard
claims. -/
def jwtParse (t : Token) (cfg : Config) (j : JWKSCache) (now : Nat)
    (outcome : FetchOutcome) (vs : RSAPublicKey → Token → Bool) : ParseResult :=
  if !(["RS256"].contains t.alg) then
    { cache := j, result := .error (.unsupportedAlg t.alg)
      getKeyCalled := false, fetched := false }
  else
    let kf := keyFunc j t now outcome
    match kf.result with
    | .error msg =>
      { cache := kf.cache, result := .error (.keyfuncError msg)
        getKeyCalled := kf.getKeyCalled, fetched := kf.fetched }
    | .ok key =>
      if !vs key t then
        { cache := kf.cache, result := .error .signatureInvalid
          getKeyCalled := kf.getKeyCalled, fetched := kf.fetched }
      else
        match validateClaims t.payload cfg now with
        | some e =>
          { cache := kf.cache, result := .error e
            getKeyCalled := kf.getKeyCalled, fetched := kf.fetched }
        | none =>
          { cache := kf.cache, result := .ok t.payload
            getKeyCalled := kf.getKeyCalled, fetched := kf.fetched }

/-- `validateAudience` from `auth.go`: the `aud` claim may be a string or an
array of strings; success iff the expected audience appears. -/
def validateAudience (m : MapClaims) (expected : String) : Bool :=
  match mapLookup m "aud" with
  | some (.str s) => s == expected
  | some (.arr elems) =>
    elems.any (fun v =>
      match v with
      | .str s => s == expected
      | _ => false)
  | _ => false

/-- What the `AuthN` handler does with one request: pass a skip-listed path
through untouched, bind claims and continue, or abort. -/
inductive AuthOutcome where
  | skipped
  | authorized (claims : Claims)
  | abort (status : Nat) (errorMsg : String)

/-- One execution of the `AuthN` middleware handler. `dec` stands for the
structural decoding step of `jwt.Parse` (`none` = the raw string is not a
well-formed compact token, which surfaces as a parse error). The Go branch
for a failed `jwt.MapClaims` type assertion is unreachable with this parser
configuration (the default claims type is `MapClaims`) and has no model
state that reaches it. -/
def AuthN (cfg : Config) (req : Request) (dec : String → Option Token)
    (j : JWKSCache) (now : Nat) (outcome : FetchOutcome)
    (vs : RSAPublicKey → Token → Bool) : AuthOutcome :=
  if cfg.SkipPaths.contains req.fullPath then .skipped
  else
    if extractToken req == "" then
      .abort 401 "missing or invalid Authorization header"
    else
      match dec (extractToken req) with
      | none => .abort 401 "invalid or expired token"
      | some t =>
        match (jwtParse t cfg j now outcome vs).result with
        | .error _ => .abort 401 "invalid or expired token"
        | .ok payload =>
          if cfg.Audience != "" && !validateAudience payload cfg.Audience then
            .abort 401 "token audience mismatch"
          else
            .authorized (buildClaims payload)

/-- `ValidateToken` from `auth.go`: builds a fresh (empty) cache, parses, and
extracts claims; note it performs no audience check. -/
def ValidateToken (t : Token) (cfg : Config) (now : Nat) (outcome : FetchOutcome)
    (vs : RSAPublicKey → Token → Bool) : Except String Claims :=
  let jwks := NewJWKSCache (cfg.IssuerURL ++ "/oauth/v2/keys")
  match (jwtParse t cfg jwks now outcome vs).result with
  | .error _ => .error "invalid token"
  | .ok payload => .ok (buildClaims payload)

/-! ## Theorems -/

/-- Role-name key set of the bound claims (empty when unauthenticated or when
the roles map is nil). -/
def claimsRoleKeys (ctx : Option Claims) : List String :=
  match ctx with
  | none => []
  | some cl =>
    match cl.Roles with
    | none => []
    | some rs => rs.map Prod.fst

theorem mapLookup_isSome {α : Type} (m : List (String × α)) (k : String) :
    (mapLookup m k).isSome = true ↔ k ∈ m.map Prod.fst := by
  induction m with
  | nil => simp [mapLookup]
  | cons p rest ih =>
    by_cases h : (p.1 == k) = true
    · rw [show mapLookup (p :: rest) k = some p.2 from by
        simp [mapLookup, List.find?, h]]
      simp at h
      simp [h]
    · have hne : p.1 ≠ k := by simpa using h
      rw [show mapLookup (p :: rest) k = mapLookup rest k from by
        simp [mapLookup, List.find?, h]]
      simp [ih, Ne.symm hne]

theorem hasRole_iff_mem (ctx : Option Claims) (r : String) :
    HasRole ctx r = true ↔ r ∈ claimsRoleKeys ctx := by
  cases ctx with
  | none => simp [HasRole, GetClaims, claimsRoleKeys]
  | some cl =>
    cases hr : cl.Roles with
    | none => simp [HasRole, GetClaims, claimsRoleKeys, hr]
    | some rs => simp [HasRole, GetClaims, claimsRoleKeys, hr, mapLookup_isSome]

/-- C7: `HasAnyRole(claims, a, b)` is true exactly when the key set of the
roles map meets `\x7ba, b\x7d`; the answer is invariant under the insertion
order of the roles map and under the order of the two role arguments, and is
false when no claims are bound or the roles map is empty or nil. -/
theorem c7_hasAnyRole_intersects (ctx : Option Claims) (a b : String) :
    (HasAnyRole ctx [a, b] = true ↔ ∃ k ∈ claimsRoleKeys ctx, k = a ∨ k = b)
  ∧ HasAnyRole ctx [a, b] = HasAnyRole ctx [b, a]
  ∧ (∀ cl cl' : Claims,
      (∀ k, k ∈ claimsRoleKeys (some cl) ↔ k ∈ claimsRoleKeys (some cl')) →
        HasAnyRole (some cl) [a, b] = HasAnyRole (some cl') [a, b])
  ∧ HasAnyRole none [a, b] = false
  ∧ (∀ cl : Claims, cl.Roles = none ∨ cl.Roles = some [] →
      HasAnyRole (some cl) [a, b] = false) := by
  refine ⟨?_, ?_, ?_, rfl, ?_⟩
  · constructor
    · intro h
      simp [HasAnyRole] at h
      rcases h with h | h
      · exact ⟨a, (hasRole_iff_mem ctx a).1 h, Or.inl rfl⟩
      · exact ⟨b, (hasRole_iff_mem ctx b).1 h, Or.inr rfl⟩
    · rintro ⟨k, hk, rfl | rfl⟩
      · simp [HasAnyRole]
        exact Or.inl ((hasRole_iff_mem ctx k).2 hk)
      · simp [HasAnyRole]
        exact Or.inr ((hasRole_iff_mem ctx k).2 hk)
  · simp [HasAnyRole, Bool.or_comm]
  · intro cl cl' hmem
    have hr : ∀ r, HasRole (some cl) r = HasRole (some cl') r := by
      intro r
      have h1 := hasRole_iff_mem (some cl) r
      have h2 := hasRole_iff_mem (some cl') r
      rw [hmem r] at h1
      cases hx : HasRole (some cl) r <;> cases hy : HasRole (some cl') r <;> simp_all
    simp [HasAnyRole, hr]
  · intro cl h
    rcases h with h | h <;> simp [HasAnyRole, HasRole, GetClaims, h, mapLookup]

/-- Witness for C7 at a concrete claims value. -/
theorem c7_witness :
    HasAnyRole
      (some { Sub := "u1", Email := "", OrgID := "", OrgDomain := ""
              Roles := some [("admin", JsonVal.null)] }) ["admin", "editor"] = true :=
  (c7_hasAnyRole_intersects
      (some { Sub := "u1", Email := "", OrgID := "", OrgDomain := ""
              Roles := some [("admin", JsonVal.null)] }) "admin" "editor").1.mpr
    ⟨"admin", by simp [claimsRoleKeys], Or.inl rfl⟩

/-- C8: `RequireTenant` denies with the 403 tenant-context-missing response
exactly when the bound claims' `OrgID` is empty (which includes an absent
claims binding, whose `OrgID` reads as `""`), and passes otherwise. -/
theorem c8_requireTenant_denies_iff_no_org (ctx : Option Claims) :
    (RequireTenant ctx =
        .abort 403 "no organization context — user must belong to an organization"
      ↔ OrgID ctx = "")
  ∧ (RequireTenant ctx = .next ↔ OrgID ctx ≠ "")
  ∧ OrgID none = "" := by
  refine ⟨?_, ?_, rfl⟩ <;> by_cases h : OrgID ctx = "" <;> simp [RequireTenant, h]

/-- C9: `RequireRole` with an empty role list denies every request with 403
(the reason lists the empty required set), because `HasAnyRole` over an empty
role list is always false. -/
theorem c9_requireRole_empty_denies_all (ctx : Option Claims) :
    RequireRole [] ctx = .abort 403 "insufficient permissions — requires one of: "
  ∧ HasAnyRole ctx [] = false :=
  ⟨rfl, rfl⟩

/-- C10 counterexample: a request whose `Authorization` header is exactly
`"Bearer "` carries a `"Bearer "`-started header AND a non-empty `token`
query parameter, yet extraction yields the empty string (the query fallback
is suppressed by the early return) and `AuthN` answers the missing-token 401,
contradicting the claimed characterisation of when extraction is empty. -/
theorem c10_counterexample :
    extractToken { fullPath := "/ws", authHeader := "Bearer ", tokenQuery := "sometoken" } = ""
  ∧ strHasPrefix "Bearer " "Bearer " = true
  ∧ "sometoken" ≠ ""
  ∧ AuthN { IssuerURL := "https://idp.example", Audience := "", SkipPaths := [] }
      { fullPath := "/ws", authHeader := "Bearer ", tokenQuery := "sometoken" }
      (fun _ => none) (NewJWKSCache "u") 0 .netErr (fun _ _ => false) =
      .abort 401 "missing or invalid Authorization header" :=
  ⟨rfl, rfl, by decide, rfl⟩

/-- C10 (amended): a header that does not start with `"Bearer "` is silently
ignored and extraction falls back to the `token` query parameter; extraction
yields the empty string — and `AuthN` the missing-token 401 — exactly when
either the header starts with `"Bearer "` but nothing follows the prefix
(the query parameter then being ignored), or the header does not start with
`"Bearer "` and the query parameter is empty. -/
theorem c10_extractToken_fallback_and_empty (r : Request) (cfg : Config)
    (dec : String → Option Token) (j : JWKSCache) (now : Nat)
    (outcome : FetchOutcome) (vs : RSAPublicKey → Token → Bool) :
    (strHasPrefix r.authHeader "Bearer " = false →
      extractToken r = (if !(r.tokenQuery == "") then r.tokenQuery else ""))
  ∧ (extractToken r = "" ↔
      (strHasPrefix r.authHeader "Bearer " = true ∧ r.authHeader.drop 7 = "")
        ∨ (strHasPrefix r.authHeader "Bearer " = false ∧ r.tokenQuery = ""))
  ∧ (extractToken r = "" → cfg.SkipPaths.contains r.fullPath = false →
      AuthN cfg r dec j now outcome vs =
        .abort 401 "missing or invalid Authorization header") := by
  have hpe : ∀ s : String, strHasPrefix s "Bearer " = true → (s == "") = false := by
    intro s hs
    cases he : (s == "") with
    | false => rfl
    | true =>
      have : s = "" := by simpa using he
      subst this
      simp [strHasPrefix, hasPrefixCharList] at hs
  refine ⟨?_, ?_, ?_⟩
  · intro h
    simp [extractToken, h]
  · by_cases hb : strHasPrefix r.authHeader "Bearer " = true
    · have hne := hpe r.authHeader hb
      simp [extractToken, hne, hb]
    · have hb' : strHasPrefix r.authHeader "Bearer " = false := by simpa using hb
      by_cases hq : r.tokenQuery = ""
      · simp [extractToken, hb', hq]
      · simp [extractToken, hb', hq]
  · intro he hskip
    have hmem : r.fullPath ∉ cfg.SkipPaths := by simpa using hskip
    simp [AuthN, hmem, he]

/-- Witness for the amended C10 at a concrete tokenless request. -/
theorem c10_witness :
    AuthN { IssuerURL := "https://idp.example", Audience := "proj1", SkipPaths := ["/health"] }
      { fullPath := "/api", authHeader := "", tokenQuery := "" }
      (fun _ => none) (NewJWKSCache "u") 5 .netErr (fun _ _ => true) =
      .abort 401 "missing or invalid Authorization header" :=
  (c10_extractToken_fallback_and_empty
      { fullPath := "/api", authHeader := "", tokenQuery := "" }
      { IssuerURL := "https://idp.example", Audience := "proj1", SkipPaths := ["/health"] }
      (fun _ => none) (NewJWKSCache "u") 5 .netErr (fun _ _ => true)).2.2 rfl rfl

/-- A cache whose mapping was refreshed 100 seconds ago (fresh with respect
to the one-hour TTL, but past the 30-second double-check window) and holds a
key other than the one requested. -/
def c4cache : JWKSCache :=
  { jwksURL := "https://idp.example/oauth/v2/keys"
    keys := [("other", { N := 101, E := 3 })]
    lastFetch := 1000
    cacheTTL := 3600 }

/-- C4 counterexample: at instant 1100 the mapping of `c4cache` is fresh by
the fast path's own condition (`now - lastFetch < TTL`), yet `GetKey` for an
absent key id performs a network fetch — the exclusive-section re-check is
the hard-coded 30-second guard, not the TTL condition the claim states. -/
theorem c4_counterexample :
    mapLookup c4cache.keys "k1" = none
  ∧ 1100 - c4cache.lastFetch < c4cache.cacheTTL
  ∧ (GetKey c4cache "k1" 1100 (.resp 200 (some { Keys := [] }))).fetched = true :=
  ⟨rfl, by decide, rfl⟩

/-- C4 (amended): the exclusive-section re-check compares against a fixed
30-second threshold rather than the TTL; a key id absent from a mapping
fetched less than 30 seconds ago yields the not-found error with no fetch,
while any older mapping triggers a fetch on a miss. -/
theorem c4_getKey_miss_recheck (j : JWKSCache) (kid : String) (now : Nat)
    (outcome : FetchOutcome) (habsent : mapLookup j.keys kid = none) :
    (now - j.lastFetch < 30 →
      GetKey j kid now outcome =
        { cache := j
          result := .error ("key \x22" ++ kid ++ "\x22 not found in JWKS")
          fetched := false })
  ∧ (¬ now - j.lastFetch < 30 → (GetKey j kid now outcome).fetched = true) := by
  constructor
  · intro h30
    simp [GetKey, refresh, habsent, h30, RefreshResult.attempted]
  · intro h30
    rcases outcome with _ | ⟨status, body⟩
    · simp [GetKey, refresh, habsent, h30]
    · by_cases hs : (status != 200) = true
      · simp [GetKey, refresh, habsent, h30, hs]
      · rcases body with _ | jwks
        · simp [GetKey, refresh, habsent, h30, hs]
        · simp only [GetKey, refresh, habsent, h30, hs]
          rcases hl : mapLookup (buildKeys jwks.Keys) kid with _ | key <;>
            simp [hl, RefreshResult.attempted]

/-- Witness for the amended C4: 10 seconds after the last fetch, a miss on
`c4cache` returns not-found without any network call. -/
theorem c4_witness :
    GetKey c4cache "k1" 1010 .netErr =
      { cache := c4cache
        result := .error ("key \x22" ++ "k1" ++ "\x22 not found in JWKS")
        fetched := false } :=
  (c4_getKey_miss_recheck c4cache "k1" 1010 .netErr rfl).1 (by decide)

/-- C5: a failed refresh (transport error, non-200 status or undecodable
body) leaves the cache state — mapping and last-fetch timestamp — exactly as
before, and the `GetKey` caller that triggered the refresh gets the wrapped
fetch-failure error. -/
theorem c5_refresh_failure_preserves_state (j : JWKSCache) (kid : String)
    (now : Nat) (outcome : FetchOutcome)
    (hwin : ¬ now - j.lastFetch < 30)
    (hfail : fetchFails outcome = true) :
    (refresh j now outcome).1 = j
  ∧ (∃ msg, (refresh j now outcome).2 = .failed msg)
  ∧ (GetKey j kid now outcome).cache = j
  ∧ (mapLookup j.keys kid = none ∨ ¬ now - j.lastFetch < j.cacheTTL →
      ∃ msg, (GetKey j kid now outcome).result =
        .error ("failed to refresh JWKS: " ++ msg)) := by
  have hre : ∃ msg, refresh j now outcome = (j, .failed msg) := by
    rcases outcome with _ | ⟨status, body⟩
    · exact ⟨"JWKS fetch failed", by simp [refresh, hwin]⟩
    · simp only [fetchFails] at hfail
      by_cases hs : (status != 200) = true
      · exact ⟨"JWKS endpoint returned status " ++ toString status,
          by simp [refresh, hwin, hs]⟩
      · rcases body with _ | jwks
        · exact ⟨"failed to decode JWKS", by simp [refresh, hwin, hs]⟩
        · exfalso
          have hs' : (status != 200) = false := by simpa using hs
          rw [hs'] at hfail
          simp at hfail
  obtain ⟨msg, hmsg⟩ := hre
  have hget : mapLookup j.keys kid = none ∨ ¬ now - j.lastFetch < j.cacheTTL →
      GetKey j kid now outcome =
        { cache := j, result := .error ("failed to refresh JWKS: " ++ msg)
          fetched := true } := by
    intro hmiss
    rcases hmiss with hmiss | hmiss
    · simp [GetKey, hmiss, hmsg]
    · rcases hl : mapLookup j.keys kid with _ | key <;>
        simp [GetKey, hl, hmiss, hmsg]
  constructor
  · rw [hmsg]
  constructor
  · exact ⟨msg, by rw [hmsg]⟩
  constructor
  · rcases hl : mapLookup j.keys kid with _ | key
    · simp [GetKey, hl, hmsg]
    · by_cases hf : now - j.lastFetch < j.cacheTTL
      · simp [GetKey, hl, hf]
      · simp [GetKey, hl, hf, hmsg]
  · intro hmiss
    exact ⟨msg, by rw [hget hmiss]⟩

/-- A fresh cache holding one key, for the C5 witness. -/
def c5cache : JWKSCache :=
  { jwksURL := "https://idp.example/oauth/v2/keys"
    keys := [("k1", { N := 55, E := 3 })]
    lastFetch := 0
    cacheTTL := 3600 }

/-- Witness for C5: a transport error 100 seconds in leaves `c5cache`
untouched and surfaces the wrapped error for an unknown key id. -/
theorem c5_witness :
    (refresh c5cache 100 .netErr).1 = c5cache
  ∧ ∃ msg, (GetKey c5cache "k2" 100 .netErr).result =
      .error ("failed to refresh JWKS: " ++ msg) :=
  ⟨(c5_refresh_failure_preserves_state c5cache "k2" 100 .netErr (by decide) rfl).1,
    (c5_refresh_failure_preserves_state c5cache "k2" 100 .netErr (by decide) rfl).2.2.2
      (Or.inl rfl)⟩

/-- A stale empty cache (as `NewJWKSCache` returns, observed an hour later). -/
def c6cache : JWKSCache :=
  { jwksURL := "https://idp.example/oauth/v2/keys"
    keys := []
    lastFetch := 0
    cacheTTL := 3600 }

/-- C6 counterexample: two serialized callers asking for the same stale key
id while the endpoint is down cause two endpoint invocations — a failed
fetch does not advance the double-check timestamp, so coalescing does not
bound the invocation count by one. -/
theorem c6_counterexample :
    (runCalls c6cache "k1" [(4000, .netErr), (4000, .netErr)]).2 = 2
  ∧ ¬ 4000 - c6cache.lastFetch < c6cache.cacheTTL :=
  ⟨rfl, by decide⟩

theorem refresh_spec (j : JWKSCache) (now : Nat) (o : FetchOutcome) :
    (now - j.lastFetch < 30 ∧ refresh j now o = (j, .skipped))
  ∨ (¬ now - j.lastFetch < 30 ∧ fetchFails o = true
      ∧ ∃ msg, refresh j now o = (j, .failed msg))
  ∨ (¬ now - j.lastFetch < 30 ∧ fetchFails o = false
      ∧ ∃ ks, refresh j now o = ({ j with keys := ks, lastFetch := now }, .fetched)) := by
  by_cases h30 : now - j.lastFetch < 30
  · exact Or.inl ⟨h30, by simp [refresh, h30]⟩
  · rcases o with _ | ⟨status, body⟩
    · exact Or.inr (Or.inl ⟨h30, rfl, "JWKS fetch failed", by simp [refresh, h30]⟩)
    · by_cases hs : (status != 200) = true
      · refine Or.inr (Or.inl ⟨h30, ?_, "JWKS endpoint returned status " ++ toString status,
          by simp [refresh, h30, hs]⟩)
        simp [fetchFails, hs]
      · have hs' : (status != 200) = false := by simpa using hs
        rcases body with _ | jwks
        · exact Or.inr (Or.inl ⟨h30, by simp [fetchFails, hs'], "failed to decode JWKS",
            by simp [refresh, h30, hs]⟩)
        · exact Or.inr (Or.inr ⟨h30, by simp [fetchFails, hs'], buildKeys jwks.Keys,
            by simp [refresh, h30, hs]⟩)

theorem getKey_state_analysis (j : JWKSCache) (kid : String) (now : Nat)
    (o : FetchOutcome) :
    ((GetKey j kid now o).fetched = false ∧ (GetKey j kid now o).cache = j)
  ∨ ((GetKey j kid now o).fetched = true ∧ ¬ now - j.lastFetch < 30
      ∧ ((fetchFails o = true ∧ (GetKey j kid now o).cache = j)
        ∨ (fetchFails o = false
            ∧ (GetKey j kid now o).cache.lastFetch = now
            ∧ (GetKey j kid now o).cache.cacheTTL = j.cacheTTL))) := by
  rcases refresh_spec j now o with ⟨h30, hr⟩ | ⟨h30, hf, msg, hr⟩ | ⟨h30, hf, ks, hr⟩
  all_goals rcases hl : mapLookup j.keys kid with _ | key
  -- refresh skipped, key absent
  · left
    simp [GetKey, hl, hr, RefreshResult.attempted]
  -- refresh skipped, key present
  · by_cases hfr : now - j.lastFetch < j.cacheTTL
    · left
      simp [GetKey, hl, hfr]
    · left
      simp [GetKey, hl, hfr, hr, RefreshResult.attempted]
  -- refresh failed, key absent
  · right
    refine ⟨?_, h30, Or.inl ⟨hf, ?_⟩⟩ <;> simp [GetKey, hl, hr]
  -- refresh failed, key present
  · by_cases hfr : now - j.lastFetch < j.cacheTTL
    · left
      simp [GetKey, hl, hfr]
    · right
      refine ⟨?_, h30, Or.inl ⟨hf, ?_⟩⟩ <;> simp [GetKey, hl, hfr, hr]
  -- refresh fetched, key absent
  · right
    refine ⟨?_, h30, Or.inr ⟨hf, ?_, ?_⟩⟩ <;>
      · simp only [GetKey, hl, hr]
        rcases h2 : mapLookup ks kid with _ | k2 <;> simp [h2, RefreshResult.attempted]
  -- refresh fetched, key present
  · by_cases hfr : now - j.lastFetch < j.cacheTTL
    · left
      simp [GetKey, hl, hfr]
    · right
      refine ⟨?_, h30, Or.inr ⟨hf, ?_, ?_⟩⟩ <;>
        · simp only [GetKey, hl, hfr, hr]
          rcases h2 : mapLookup ks kid with _ | k2 <;> simp [h2, RefreshResult.attempted]

theorem runCalls_coalesce_aux (kid : String) (t0 : Nat) :
    ∀ (calls : List (Nat × FetchOutcome)) (j : JWKSCache),
      30 ≤ j.cacheTTL →
      (∀ p ∈ calls, t0 ≤ p.1 ∧ p.1 < t0 + 30) →
      (∀ p ∈ calls, fetchFails p.2 = false) →
      (runCalls j kid calls).2 ≤ 1
        ∧ (t0 ≤ j.lastFetch → (runCalls j kid calls).2 = 0) := by
  intro calls
  induction calls with
  | nil =>
    intro j _ _ _
    exact ⟨by simp [runCalls], fun _ => by simp [runCalls]⟩
  | cons c rest ih =>
    intro j httl htimes hok
    obtain ⟨now, o⟩ := c
    have hc := htimes (now, o) (List.mem_cons_self _ _)
    have hco : fetchFails o = false := hok (now, o) (List.mem_cons_self _ _)
    have htimes' : ∀ p ∈ rest, t0 ≤ p.1 ∧ p.1 < t0 + 30 :=
      fun p hp => htimes p (List.mem_cons_of_mem _ hp)
    have hok' : ∀ p ∈ rest, fetchFails p.2 = false :=
      fun p hp => hok p (List.mem_cons_of_mem _ hp)
    have hrun : (runCalls j kid ((now, o) :: rest)).2 =
        (if (GetKey j kid now o).fetched then 1 else 0)
          + (runCalls (GetKey j kid now o).cache kid rest).2 := by
      simp [runCalls]
    rcases getKey_state_analysis j kid now o with
      ⟨hf, hcache⟩ | ⟨hf, h30, ⟨hfail, -⟩ | ⟨-, hlf, httl'⟩⟩
    · -- no fetch: state unchanged, recurse
      have hrec := ih j httl htimes' hok'
      constructor
      · rw [hrun, hf, hcache]
        simpa using hrec.1
      · intro hj
        rw [hrun, hf, hcache]
        simpa using hrec.2 hj
    · -- a fetch that failed cannot happen: outcomes succeed
      rw [hfail] at hco
      exact absurd hco (by simp)
    · -- successful fetch at `now`: afterwards `lastFetch` is in the window
      have hrec := ih (GetKey j kid now o).cache (by rw [httl']; exact httl) htimes' hok'
      have hzero : (runCalls (GetKey j kid now o).cache kid rest).2 = 0 :=
        hrec.2 (by rw [hlf]; exact hc.1)
      constructor
      · rw [hrun, hf, hzero]
        simp
      · intro hj
        -- `lastFetch ≥ t0` and `now < t0 + 30` put this call inside the
        -- double-check window, contradicting that it fetched
        exfalso
        have hwin : now - j.lastFetch < 30 := by omega
        exact h30 hwin

/-- C6 (amended): when the endpoint fetches succeed, any serialized trace of
`GetKey` callers for one key id whose calls fall within a single 30-second
double-check window triggers at most one endpoint invocation (serialization
itself models the exclusive lock around `refresh`, which already guarantees
no two fetches are in flight simultaneously); with failing fetches each
caller may retry, as the counterexample shows. -/
theorem c6_coalescing_on_success (j : JWKSCache) (kid : String) (t0 : Nat)
    (calls : List (Nat × FetchOutcome))
    (httl : 30 ≤ j.cacheTTL)
    (htimes : ∀ p ∈ calls, t0 ≤ p.1 ∧ p.1 < t0 + 30)
    (hok : ∀ p ∈ calls, fetchFails p.2 = false) :
    (runCalls j kid calls).2 ≤ 1 :=
  (runCalls_coalesce_aux kid t0 calls j httl htimes hok).1

/-- Witness for the amended C6: two successful callers in one window, one
fetch at most. -/
theorem c6_witness :
    (runCalls c6cache "k1"
      [(4000, .resp 200 (some { Keys := [] })),
       (4010, .resp 200 (some { Keys := [] }))]).2 ≤ 1 :=
  c6_coalescing_on_success c6cache "k1" 4000 _ (by decide)
    (by
      intro p hp
      rcases List.mem_cons.mp hp with rfl | hp2
      · exact ⟨by decide, by decide⟩
      rcases List.mem_cons.mp hp2 with rfl | hp3
      · exact ⟨by decide, by decide⟩
      · simp at hp3)
    (by
      intro p hp
      rcases List.mem_cons.mp hp with rfl | hp2
      · rfl
      rcases List.mem_cons.mp hp2 with rfl | hp3
      · rfl
      · simp at hp3)

/-- C3: a token declaring any algorithm outside the RSA-signature family
(`"none"`, HMAC, ...) is rejected by the allow-list check with the
unsupported-algorithm error before the keyfunc runs, so `GetKey` is never
invoked and no fetch happens; the standalone keyfunc likewise errors without
calling `GetKey`. -/
theorem c3_non_rsa_alg_fails_before_key_lookup (t : Token) (cfg : Config)
    (j : JWKSCache) (now : Nat) (outcome : FetchOutcome)
    (vs : RSAPublicKey → Token → Bool)
    (halg : isRSAMethod t.alg = false) :
    (jwtParse t cfg j now outcome vs).result = .error (.unsupportedAlg t.alg)
  ∧ (jwtParse t cfg j now outcome vs).getKeyCalled = false
  ∧ (jwtParse t cfg j now outcome vs).fetched = false
  ∧ (keyFunc j t now outcome).getKeyCalled = false
  ∧ (keyFunc j t now outcome).result = .error ("unexpected signing method: " ++ t.alg) := by
  have h256 : (t.alg == "RS256") = false := by
    simp only [isRSAMethod, Bool.or_eq_false_iff] at halg
    exact halg.1.1
  have hne : t.alg ≠ "RS256" := by simpa using h256
  refine ⟨?_, ?_, ?_, ?_, ?_⟩ <;> simp [jwtParse, keyFunc, hne, halg]

/-- Witness for C3 at the unsigned `"none"` declaration. -/
theorem c3_witness :
    (jwtParse { alg := "none", kid := some "k1", payload := [] }
        { IssuerURL := "https://idp.example", Audience := "", SkipPaths := [] }
        (NewJWKSCache "u") 0 .netErr (fun _ _ => true)).result =
      .error (.unsupportedAlg "none")
  ∧ (jwtParse { alg := "none", kid := some "k1", payload := [] }
        { IssuerURL := "https://idp.example", Audience := "", SkipPaths := [] }
        (NewJWKSCache "u") 0 .netErr (fun _ _ => true)).getKeyCalled = false :=
  ⟨(c3_non_rsa_alg_fails_before_key_lookup
      { alg := "none", kid := some "k1", payload := [] }
      { IssuerURL := "https://idp.example", Audience := "", SkipPaths := [] }
      (NewJWKSCache "u") 0 .netErr (fun _ _ => true) rfl).1,
   (c3_non_rsa_alg_fails_before_key_lookup
      { alg := "none", kid := some "k1", payload := [] }
      { IssuerURL := "https://idp.example", Audience := "", SkipPaths := [] }
      (NewJWKSCache "u") 0 .netErr (fun _ _ => true) rfl).2.1⟩

/-- Configuration used by the C2 scenario. -/
def c2cfg : Config :=
  { IssuerURL := "https://idp.example", Audience := "proj1", SkipPaths := [] }

/-- A cache already holding the signing key `k1`, fetched 50 seconds ago. -/
def c2cache : JWKSCache :=
  { jwksURL := "https://idp.example/oauth/v2/keys"
    keys := [("k1", { N := 91, E := 3 })]
    lastFetch := 100
    cacheTTL := 3600 }

/-- A token valid in every respect except that its audience is not the
configured `proj1`. -/
def c2tok : Token :=
  { alg := "RS256", kid := some "k1"
    payload := [("iss", .str "https://idp.example"), ("exp", .num 9999),
                ("aud", .str "other-proj"), ("sub", .str "u1")] }

/-- C2 counterexample: two failing requests — one with no token, one failing
only the audience check — both get 401 but with different response messages,
and the audience message names the failed check; the boundary response is
not one single generic reply. -/
theorem c2_counterexample :
    AuthN c2cfg { fullPath := "/a", authHeader := "", tokenQuery := "" }
        (fun _ => some c2tok) c2cache 150 .netErr (fun _ _ => true) =
      .abort 401 "missing or invalid Authorization header"
  ∧ AuthN c2cfg { fullPath := "/a", authHeader := "Bearer t1", tokenQuery := "" }
        (fun _ => some c2tok) c2cache 150 .netErr (fun _ _ => true) =
      .abort 401 "token audience mismatch"
  ∧ "missing or invalid Authorization header" ≠ "token audience mismatch" :=
  ⟨rfl, rfl, by decide⟩

/-- C2 (amended): every authentication failure of `AuthN` carries HTTP status
401 — the status never distinguishes the reason — but the response body is
one of several distinct messages (missing token / generic parse-validation
failure / audience mismatch), so the message can reveal that the audience
check in particular failed. -/
theorem c2_all_failures_are_401 (cfg : Config) (req : Request)
    (dec : String → Option Token) (j : JWKSCache) (now : Nat)
    (outcome : FetchOutcome) (vs : RSAPublicKey → Token → Bool)
    (s : Nat) (msg : String)
    (h : AuthN cfg req dec j now outcome vs = .abort s msg) :
    s = 401
  ∧ (msg = "missing or invalid Authorization header"
      ∨ msg = "invalid or expired token"
      ∨ msg = "token audience mismatch") := by
  unfold AuthN at h
  repeat' split at h
  all_goals
    first
      | exact AuthOutcome.noConfusion h
      | (injection h with h1 h2
         subst h1
         subst h2
         exact ⟨rfl, by simp⟩)

/-- Witness for the amended C2 at the concrete audience-mismatch request. -/
theorem c2_witness :
    (401 : Nat) = 401
  ∧ ("token audience mismatch" = "missing or invalid Authorization header"
      ∨ "token audience mismatch" = "invalid or expired token"
      ∨ "token audience mismatch" = "token audience mismatch") :=
  c2_all_failures_are_401 c2cfg { fullPath := "/a", authHeader := "Bearer t1", tokenQuery := "" }
    (fun _ => some c2tok) c2cache 150 .netErr (fun _ _ => true) 401 "token audience mismatch" rfl

/-- C1 (amended): for a presented token with the allow-listed algorithm whose
key resolves, signature verifies, expiry lies in the future, not-before (if
present) is not in the future, issuer equals the configured issuer and
audience (when configured) contains the expected audience, `AuthN` succeeds
and binds Claims whose subject, email, organization id and roles equal the
corresponding payload fields, each string field defaulting to the empty
string and the roles map to nil when its claim is absent — but whose
organization domain is always the empty string, whatever the payload's
`urn:zitadel:iam:user:resourceowner:primary_domain` says, because the
extraction block never assigns `OrgDomain`. -/
theorem c1_validate_success_binds_payload_claims
    (cfg : Config) (req : Request) (dec : String → Option Token)
    (j : JWKSCache) (now : Nat) (outcome : FetchOutcome)
    (vs : RSAPublicKey → Token → Bool)
    (t : Token) (kid : String) (key : RSAPublicKey)
    (su em oid : String) (rolesVal : Option (List (String × JsonVal))) (e : Int)
    (hskip : cfg.SkipPaths.contains req.fullPath = false)
    (htok : ¬ extractToken req = "")
    (hdec : dec (extractToken req) = some t)
    (halg : t.alg = "RS256")
    (hkid : t.kid = some kid)
    (hkey : (GetKey j kid now outcome).result = .ok key)
    (hsig : vs key t = true)
    (hexp : mapLookup t.payload "exp" = some (.num e))
    (hefut : (now : Int) < e)
    (hnbf : mapLookup t.payload "nbf" = none
      ∨ ∃ nb : Int, mapLookup t.payload "nbf" = some (.num nb) ∧ nb ≤ (now : Int))
    (hiss : mapLookup t.payload "iss" = some (.str cfg.IssuerURL))
    (haud : cfg.Audience ≠ "" → validateAudience t.payload cfg.Audience = true)
    (hsub : mapLookup t.payload "sub" = some (.str su)
      ∨ (mapLookup t.payload "sub" = none ∧ su = ""))
    (hemail : mapLookup t.payload "email" = some (.str em)
      ∨ (mapLookup t.payload "email" = none ∧ em = ""))
    (horg : mapLookup t.payload "urn:zitadel:iam:org:id" = some (.str oid)
      ∨ (mapLookup t.payload "urn:zitadel:iam:org:id" = none ∧ oid = ""))
    (hroles : (∃ fields, mapLookup t.payload "urn:zitadel:iam:org:project:roles"
          = some (.obj fields) ∧ rolesVal = some fields)
      ∨ (mapLookup t.payload "urn:zitadel:iam:org:project:roles" = none
          ∧ rolesVal = none)) :
    AuthN cfg req dec j now outcome vs =
      .authorized { Sub := su, Email := em, OrgID := oid, OrgDomain := "", Roles := rolesVal } := by
  have hkf : (keyFunc j t now outcome).result = .ok key := by
    simp [keyFunc, halg, isRSAMethod, hkid, hkey]
  have hissok : checkIss t.payload cfg.IssuerURL = none := by
    by_cases hi : cfg.IssuerURL = ""
    · simp [checkIss, hi]
    · simp [checkIss, hi, hiss]
  have hnbfok : checkNbf t.payload now = none := by
    rcases hnbf with h | ⟨nb, h, hle⟩
    · simp [checkNbf, getNumericDate, h]
    · simp [checkNbf, getNumericDate, h, hle]
  have hval : validateClaims t.payload cfg now = none := by
    simp [validateClaims, checkExp, getNumericDate, hexp, hefut, hnbfok, hissok]
  have hparse : (jwtParse t cfg j now outcome vs).result = .ok t.payload := by
    simp [jwtParse, halg, hkf, hsig, hval]
  have hsub2 : getStringClaim t.payload "sub" = su := by
    rcases hsub with h | ⟨h, rfl⟩ <;> simp [getStringClaim, h]
  have hemail2 : getStringClaim t.payload "email" = em := by
    rcases hemail with h | ⟨h, rfl⟩ <;> simp [getStringClaim, h]
  have horg2 : getStringClaim t.payload "urn:zitadel:iam:org:id" = oid := by
    rcases horg with h | ⟨h, rfl⟩ <;> simp [getStringClaim, h]
  have hbuild : buildClaims t.payload =
      { Sub := su, Email := em, OrgID := oid, OrgDomain := "", Roles := rolesVal } := by
    rcases hroles with ⟨fields, h, rfl⟩ | ⟨h, rfl⟩ <;>
      simp [buildClaims, h, hsub2, hemail2, horg2]
  have hmem : req.fullPath ∉ cfg.SkipPaths := by simpa using hskip
  by_cases ha : cfg.Audience = ""
  · simp [AuthN, hmem, htok, hdec, hparse, ha, hbuild]
  · have ha1 : validateAudience t.payload cfg.Audience = true := haud ha
    simp [AuthN, hmem, htok, hdec, hparse, ha, ha1, hbuild]

/-- Configuration used by the C1 scenario. -/
def c1cfg : Config :=
  { IssuerURL := "https://idp.example", Audience := "proj1", SkipPaths := [] }

/-- A fully valid token payload whose resource-owner primary domain is
`acme.example`. -/
def c1payload : MapClaims :=
  [("iss", .str "https://idp.example"), ("exp", .num 99999),
   ("aud", .str "proj1"), ("sub", .str "user-1"),
   ("email", .str "u@acme.example"),
   ("urn:zitadel:iam:org:id", .str "org-1"),
   ("urn:zitadel:iam:user:resourceowner:primary_domain", .str "acme.example"),
   ("urn:zitadel:iam:org:project:roles", .obj [("admin", .null)])]

/-- The C1 token: allow-listed algorithm, known key id, the payload above. -/
def c1tok : Token :=
  { alg := "RS256", kid := some "k1", payload := c1payload }

/-- A cache already holding `k1`, fetched 50 seconds before validation. -/
def c1cache : JWKSCache :=
  { jwksURL := "https://idp.example/oauth/v2/keys"
    keys := [("k1", { N := 12345, E := 65537 })]
    lastFetch := 100
    cacheTTL := 3600 }

/-- The C1 request carrying the token in the Authorization header. -/
def c1req : Request :=
  { fullPath := "/api", authHeader := "Bearer t1", tokenQuery := "" }

/-- A second C1 scenario: audience enforcement disabled, `nbf` present and
already reached, email / organization id / roles claims absent. -/
def c1cfgB : Config :=
  { IssuerURL := "https://idp.example", Audience := "", SkipPaths := [] }

/-- Payload for the second C1 scenario: only `iss`, `exp`, a satisfied
`nbf`, and `sub`. -/
def c1payloadB : MapClaims :=
  [("iss", .str "https://idp.example"), ("exp", .num 99999),
   ("nbf", .num 100), ("sub", .str "user-2")]

/-- The token of the second C1 scenario. -/
def c1tokB : Token :=
  { alg := "RS256", kid := some "k1", payload := c1payloadB }

/-- C1 counterexample: on a token satisfying every premise of the claim
(allow-listed algorithm, matching issuer, matching audience, future expiry)
validation succeeds, but the bound Claims' organization domain is the empty
string while the token payload's organization-domain field is
`"acme.example"` — the claimed field-by-field equality fails on that field. -/
theorem c1_counterexample :
    AuthN c1cfg c1req (fun _ => some c1tok) c1cache 150 .netErr (fun _ _ => true) =
      .authorized { Sub := "user-1", Email := "u@acme.example", OrgID := "org-1"
                    OrgDomain := "", Roles := some [("admin", .null)] }
  ∧ mapLookup c1payload "urn:zitadel:iam:user:resourceowner:primary_domain" =
      some (.str "acme.example")
  ∧ ("" : String) ≠ "acme.example" :=
  ⟨rfl, rfl, by decide⟩

/-- Witness for the amended C1 at two concrete scenarios: one with every
optional field present and `nbf` absent, one with `nbf` present and
satisfied and the optional email / organization id / roles claims missing,
so that the defaults are exercised. Every hypothesis is discharged by
evaluation. -/
theorem c1_witness :
    (AuthN c1cfg c1req (fun _ => some c1tok) c1cache 150 (.resp 200 none)
        (fun _ _ => true) =
      .authorized { Sub := "user-1", Email := "u@acme.example", OrgID := "org-1"
                    OrgDomain := "", Roles := some [("admin", .null)] })
  ∧ (AuthN c1cfgB c1req (fun _ => some c1tokB) c1cache 150 (.resp 200 none)
        (fun _ _ => true) =
      .authorized { Sub := "user-2", Email := "", OrgID := ""
                    OrgDomain := "", Roles := none }) :=
  ⟨c1_validate_success_binds_payload_claims c1cfg c1req (fun _ => some c1tok)
      c1cache 150 (.resp 200 none) (fun _ _ => true) c1tok "k1"
      { N := 12345, E := 65537 } "user-1" "u@acme.example" "org-1"
      (some [("admin", .null)]) 99999
      rfl (by decide) rfl rfl rfl rfl rfl rfl (by decide) (Or.inl rfl) rfl
      (fun _ => rfl) (Or.inl rfl) (Or.inl rfl) (Or.inl rfl)
      (Or.inl ⟨[("admin", .null)], rfl, rfl⟩),
   c1_validate_success_binds_payload_claims c1cfgB c1req (fun _ => some c1tokB)
      c1cache 150 (.resp 200 none) (fun _ _ => true) c1tokB "k1"
      { N := 12345, E := 65537 } "user-2" "" "" none 99999
      rfl (by decide) rfl rfl rfl rfl rfl rfl (by decide)
      (Or.inr ⟨100, rfl, by decide⟩) rfl
      (fun h => absurd rfl h) (Or.inl rfl) (Or.inr ⟨rfl, rfl⟩)
      (Or.inr ⟨rfl, rfl⟩) (Or.inr ⟨rfl, rfl⟩)⟩
